import Mathlib

/-!
# DeceptiveDNS — verification of the spec against `main.go`

Shallow embedding of the DNS responder in `main.go` (the revision that
implements `unpack`/`pack`).  Go byte slices are modelled as `List Nat`
(each entry a byte value 0–255; where Go casts with `byte(..)` we take
`% 256` explicitly), Go `string`s as their byte sequences, `uint16`
fields as `Nat` (always < 2^16 in the code since they are read from two
bytes), and fallible operations return explicit result types.  A Go
runtime panic (slice bounds out of range) is modelled as an explicit
outcome, since `handleRequest` recovers from panics and sends nothing.
-/

/-- Big-endian 16-bit read of two bytes (`binary.BigEndian.Uint16`). -/
def be16 (hi lo : Nat) : Nat := hi * 256 + lo

/-- `binary.BigEndian.PutUint16 l[i:i+2] v`: writes the high byte of `v`
at index `i` and the low byte at `i+1`. -/
def putUint16 (l : List Nat) (i v : Nat) : List Nat :=
  (l.set i (v / 256 % 256)).set (i + 1) (v % 256)

/-- `dnsQuestion` from `main.go`: `Name` is the Go string's bytes.
The Go field `Type` is rendered `Qtype` (`Type` is a Lean keyword). -/
structure dnsQuestion where
  Name : List Nat
  Qtype : Nat
  Class : Nat
deriving DecidableEq

/-- `dnsResourceRecord` from `main.go`; `Data` models a `net.IP`
(`none` = nil). -/
structure dnsResourceRecord where
  Name : List Nat
  Rtype : Nat
  Class : Nat
  TTL : Nat
  Data : Option (List Nat)
deriving DecidableEq

/-- `dnsMsg` from `main.go`. -/
structure dnsMsg where
  ID : Nat
  Flags : Nat
  Question : dnsQuestion
  Answers : List dnsResourceRecord
deriving DecidableEq

/-- Outcome of `(*dnsMsg).unpack`: the two `fmt.Errorf` returns, the
possible slice-bounds runtime panic, or success. -/
inductive unpackResult where
  /-- `"invalid DNS message: message too short"` (buffer < 12 bytes). -/
  | errTooShort : unpackResult
  /-- `"invalid DNS message: malformed question section"`
  (`qStart+4 > len(data)`). -/
  | errMalformedQuestion : unpackResult
  /-- Go runtime panic: `data[qStart+3 : qStart+5]` with
  `qStart+5 > len(data)` (slice bounds out of range). -/
  | panicSliceOOB : unpackResult
  /-- Successful decode. -/
  | ok : dnsMsg → unpackResult
deriving DecidableEq

/-- `(*dnsMsg).unpack` from `main.go`.  The Go loop
`for qStart < len(data) && data[qStart] != 0 { qStart++ }` starting at 12
leaves `qStart = 12 +` the length of the maximal nonzero prefix of
`data[12:]`; `Name = string(data[12:qStart])` is exactly that prefix
(raw bytes, length prefixes included, no dot-joining).  The bounds check
is `qStart+4 > len(data)`, but the class read `data[qStart+3:qStart+5]`
needs `qStart+5 ≤ len(data)`; the gap is modelled as `panicSliceOOB`. -/
def unpack (data : List Nat) : unpackResult :=
  if data.length < 12 then .errTooShort
  else
    let nameBytes := (data.drop 12).takeWhile (fun b => b != 0)
    let qStart := 12 + nameBytes.length
    if qStart + 4 > data.length then .errMalformedQuestion
    else if data.length < qStart + 5 then .panicSliceOOB
    else .ok {
      ID := be16 (data.getD 0 0) (data.getD 1 0)
      Flags := be16 (data.getD 2 0) (data.getD 3 0)
      Question := {
        Name := nameBytes
        Qtype := be16 (data.getD (qStart + 1) 0) (data.getD (qStart + 2) 0)
        Class := be16 (data.getD (qStart + 3) 0) (data.getD (qStart + 4) 0) }
      Answers := [] }

/-- `strings.Split(s, ".")` at the byte level: `"."` is a single ASCII
byte (46), so Go splits on every occurrence of byte 46; the empty string
splits to `[""]`. -/
def splitOnDot : List Nat → List (List Nat)
  | [] => [[]]
  | b :: rest =>
      if b = 46 then [] :: splitOnDot rest
      else match splitOnDot rest with
        | s :: ss => (b :: s) :: ss
        | [] => [[b]]

/-- `(*dnsMsg).pack` from `main.go`: 12-byte header with only ID and
Flags written (`make([]byte, 12)` zero-fills, so QDCOUNT..ARCOUNT stay
0), the question name split on `"."` and re-encoded as length-prefixed
labels with a zero terminator, then type and class.  `msg.Answers` is
never consulted and the returned error is always nil. -/
def pack (msg : dnsMsg) : Except String (List Nat) :=
  let header := putUint16 (putUint16 (List.replicate 12 0) 0 msg.ID) 2 msg.Flags
  let qName := splitOnDot msg.Question.Name
  let qNameBytes :=
    (qName.foldl (fun acc label => (acc ++ [label.length % 256]) ++ label) []) ++ [0]
  let qType := [msg.Question.Qtype / 256 % 256, msg.Question.Qtype % 256]
  let qClass := [msg.Question.Class / 256 % 256, msg.Question.Class % 256]
  .ok (header ++ (qNameBytes ++ (qType ++ qClass)))

/-- ASCII lower-casing of one byte (`A`–`Z` ↦ `a`–`z`). -/
def asciiToLower (b : Nat) : Nat := if 65 ≤ b && b ≤ 90 then b + 32 else b

/-- Models `strings.EqualFold`.  Go folds Unicode runes; on ASCII bytes
— every string these claims exercise — it is exactly per-byte ASCII case
folding, which is what we define. -/
def stringsEqualFold (a b : List Nat) : Bool :=
  a.map asciiToLower == b.map asciiToLower

def dnsTypeA : Nat := 1
def dnsClassIN : Nat := 1
def dnsFlagsResponse : Nat := 0x8180

/-- Decimal digit byte. -/
def isDigitByte (b : Nat) : Bool := 48 ≤ b && b ≤ 57

/-- Decimal value of a digit-byte string. -/
def decValue (l : List Nat) : Nat := l.foldl (fun acc b => acc * 10 + (b - 48)) 0

/-- One dotted-quad octet: 1–3 digits, value ≤ 255. -/
def validOctet (l : List Nat) : Bool :=
  decide (1 ≤ l.length) && decide (l.length ≤ 3) && l.all isDigitByte
    && decide (decValue l ≤ 255)

/-- Models `net.ParseIP` for dotted-quad IPv4 input (the only form the
configuration uses), returning the four address bytes; other inputs give
`none` (Go's nil).  IPv6 forms and Go's exact textual edge cases are not
modelled: the parsed value is never observable, since `pack` ignores
`Answers` (proved at C9). -/
def netParseIP (s : List Nat) : Option (List Nat) :=
  match splitOnDot s with
  | [a, b, c, d] =>
      if validOctet a && validOctet b && validOctet c && validOctet d then
        some [decValue a, decValue b, decValue c, decValue d]
      else none
  | _ => none

/-- `dnsServer` from `main.go`: the two configuration strings, set once
in `main` from the flags (no normalization — in particular no
trailing-dot stripping) and never mutated. -/
structure dnsServer where
  domain : List Nat
  ip : List Nat

/-- `(*dnsServer).handleRequest` from `main.go`, as the list of
datagrams it writes to the socket (`[]` = nothing sent).  Decode errors
and panics are logged/recovered and send nothing; on a `strings.EqualFold`
match it builds the response message (echoed ID and question, flags
`0x8180`, one A/IN record with TTL 3600 and `net.ParseIP(s.ip)` data),
packs it and performs the single `WriteToUDP`. -/
def handleRequest (s : dnsServer) (req : List Nat) : List (List Nat) :=
  match unpack req with
  | .ok msg =>
      if stringsEqualFold msg.Question.Name s.domain then
        let resp : dnsMsg := {
          ID := msg.ID
          Flags := dnsFlagsResponse
          Question := msg.Question
          Answers := [{ Name := s.domain, Rtype := dnsTypeA, Class := dnsClassIN,
                        TTL := 3600, Data := netParseIP s.ip }] }
        match pack resp with
        | .ok respBytes => [respBytes]
        | .error _ => []
      else []
  | _ => []

/-- The receive loop in `(*dnsServer).start`: each datagram is handed to
an independent `handleRequest` with no state carried between them, so a
trace of inbound datagrams maps pointwise to their write-lists. -/
def processAll (s : dnsServer) (reqs : List (List Nat)) : List (List (List Nat)) :=
  reqs.map (handleRequest s)

/-! ## Concrete configuration and queries used by the claims -/

/-- `"example.com"` as bytes. -/
def exampleComBytes : List Nat := [101, 120, 97, 109, 112, 108, 101, 46, 99, 111, 109]

/-- `"192.168.1.100"` as bytes. -/
def exampleIpBytes : List Nat := [49, 57, 50, 46, 49, 54, 56, 46, 49, 46, 49, 48, 48]

/-- The spec's running configuration: domain `"example.com"`,
ip `"192.168.1.100"`. -/
def exampleServer : dnsServer := { domain := exampleComBytes, ip := exampleIpBytes }

/-- A standard wire-format type-A query for `example.com`, id `0x1234`:
12-byte header (QDCOUNT 1) then `\x07example\x03com\x00`, type 1,
class 1. -/
def queryExampleA : List Nat :=
  [0x12, 0x34, 0x01, 0x00, 0x00, 0x01, 0, 0, 0, 0, 0, 0,
   7, 101, 120, 97, 109, 112, 108, 101, 3, 99, 111, 109, 0,
   0, 1, 0, 1]

/-- The question name `unpack` extracts, when decoding succeeds. -/
def decodedName (data : List Nat) : Option (List Nat) :=
  match unpack data with
  | .ok msg => some msg.Question.Name
  | _ => none

/-- Labels joined with `.` (byte 46) — the dot-separated name the spec
says decoding should produce. -/
def joinDots : List (List Nat) → List Nat
  | [] => []
  | [l] => l
  | l :: ls => l ++ 46 :: joinDots ls

/-- Wire encoding of a question name from its labels: each label
preceded by its length byte (the claims restrict lengths to 1–63, so no
truncation is involved). -/
def encodeLabels : List (List Nat) → List Nat
  | [] => []
  | l :: ls => l.length :: l ++ encodeLabels ls

/-- A well-formed single-question wire query: 12-byte header (QDCOUNT 1)
with the given id and flags, the encoded name, the zero terminator, and
big-endian type and class. -/
def mkWireQuery (id flags : Nat) (labels : List (List Nat)) (qt qc : Nat) : List Nat :=
  [id / 256 % 256, id % 256, flags / 256 % 256, flags % 256,
   0, 1, 0, 0, 0, 0, 0, 0]
    ++ (encodeLabels labels
      ++ 0 :: [qt / 256 % 256, qt % 256, qc / 256 % 256, qc % 256])

/-- The flat form of `pack`'s name re-encoding: each label of the split
name preceded by `byte(len(label))`. -/
def lengthPrefixedLabels : List (List Nat) → List Nat
  | [] => []
  | l :: ls => l.length % 256 :: l ++ lengthPrefixedLabels ls

/-- A wire query for `other.com` (id `0x9999`, type A). -/
def queryOtherA : List Nat :=
  [0x99, 0x99, 0x01, 0x00, 0x00, 0x01, 0, 0, 0, 0, 0, 0,
   5, 111, 116, 104, 101, 114, 3, 99, 111, 109, 0,
   0, 1, 0, 1]

/-- A crafted datagram whose bytes 12.. are literally `"example.com"`
then the terminator, type AAAA (28), class 1, id `0x5678` — the only
kind of input whose decoded name can equal the configured domain, since
`unpack` keeps the raw bytes. -/
def queryCraftedAAAA : List Nat :=
  [0x56, 0x78, 0x01, 0x00, 0x00, 0x01, 0, 0, 0, 0, 0, 0]
    ++ exampleComBytes ++ [0, 0, 28, 0, 1]

/-- `"EXAMPLE.COM"` as bytes. -/
def exampleComUpperBytes : List Nat := [69, 88, 65, 77, 80, 76, 69, 46, 67, 79, 77]

/-- Crafted type-A datagram decoding to `"EXAMPLE.COM"` (id `0xABCD`). -/
def queryCraftedUpper : List Nat :=
  [0xAB, 0xCD, 0x01, 0x00, 0x00, 0x01, 0, 0, 0, 0, 0, 0]
    ++ exampleComUpperBytes ++ [0, 0, 1, 0, 1]

/-- Crafted type-A datagram decoding to `"example.com"` (id `0xABCD`). -/
def queryCraftedLower : List Nat :=
  [0xAB, 0xCD, 0x01, 0x00, 0x00, 0x01, 0, 0, 0, 0, 0, 0]
    ++ exampleComBytes ++ [0, 0, 1, 0, 1]

/-- A server configured with a trailing-dot domain `"example.com."`. -/
def dottedServer : dnsServer :=
  { domain := exampleComBytes ++ [46], ip := exampleIpBytes }

/-- 16-byte buffer: terminator at offset 12, then exactly 3 bytes — one
byte short of a full type/class, yet `qStart+4 > len` does not fire. -/
def truncatedTail3 : List Nat :=
  [0x12, 0x34, 0, 0, 0, 0, 0, 0, 0, 0, 0, 0, 0, 0, 1, 0]

/-- 15-byte buffer: terminator at offset 12, then only 2 bytes. -/
def truncatedTail2 : List Nat :=
  [0x12, 0x34, 0, 0, 0, 0, 0, 0, 0, 0, 0, 0, 0, 0, 1]

/-! ## Helper lemmas -/

theorem takeWhile_append_zero (l rest : List Nat) (h : ∀ b ∈ l, b ≠ 0) :
    (l ++ 0 :: rest).takeWhile (fun b => b != 0) = l := by
  induction l with
  | nil => simp
  | cons a l ih =>
      have ha : (a != 0) = true := by
        simpa using h a (by simp)
      simp only [List.cons_append, List.takeWhile_cons, ha, if_true]
      rw [ih (fun b hb => h b (by simp [hb]))]

theorem encodeLabels_ne_zero (labels : List (List Nat))
    (h1 : ∀ l ∈ labels, 1 ≤ l.length)
    (h3 : ∀ l ∈ labels, ∀ b ∈ l, b ≠ 0) :
    ∀ b ∈ encodeLabels labels, b ≠ 0 := by
  induction labels with
  | nil => simp [encodeLabels]
  | cons l ls ih =>
      intro b hb
      have hb' : b = l.length ∨ b ∈ l ∨ b ∈ encodeLabels ls := by
        simpa [encodeLabels] using hb
      rcases hb' with hb' | hb' | hb'
      · have := h1 l (by simp)
        omega
      · exact h3 l (by simp) b hb'
      · exact ih (fun x hx => h1 x (by simp [hx]))
          (fun x hx => h3 x (by simp [hx])) b hb'

theorem getD_map_handle (s : dnsServer) (reqs : List (List Nat)) (i : Nat)
    (h : i < reqs.length) :
    (processAll s reqs).getD i [] = handleRequest s (reqs.getD i []) := by
  induction reqs generalizing i with
  | nil => simp at h
  | cons r rs ih =>
      cases i with
      | zero => simp [processAll]
      | succ n =>
          have hn : n < rs.length := by simpa using h
          simpa [processAll] using ih n hn

theorem foldl_lengthPrefixed (labels : List (List Nat)) (acc : List Nat) :
    labels.foldl (fun acc label => (acc ++ [label.length % 256]) ++ label) acc
      = acc ++ lengthPrefixedLabels labels := by
  induction labels generalizing acc with
  | nil => simp [lengthPrefixedLabels]
  | cons l ls ih =>
      rw [List.foldl_cons, ih]
      simp [lengthPrefixedLabels]

theorem header_bytes (v f : Nat) :
    putUint16 (putUint16 (List.replicate 12 0) 0 v) 2 f
      = [v / 256 % 256, v % 256, f / 256 % 256, f % 256, 0, 0, 0, 0, 0, 0, 0, 0] := by
  rfl

theorem pack_eq (msg : dnsMsg) :
    pack msg = .ok (
      [msg.ID / 256 % 256, msg.ID % 256, msg.Flags / 256 % 256, msg.Flags % 256,
       0, 0, 0, 0, 0, 0, 0, 0]
      ++ lengthPrefixedLabels (splitOnDot msg.Question.Name) ++ [0]
      ++ [msg.Question.Qtype / 256 % 256, msg.Question.Qtype % 256,
          msg.Question.Class / 256 % 256, msg.Question.Class % 256]) := by
  simp only [pack]
  rw [foldl_lengthPrefixed, header_bytes]
  simp

/-! ## Claims -/

/-- C1: the spec says the standard type-A wire query for `example.com`
(id 0x1234, ip "192.168.1.100") yields a response with echoed ID, flags
0x8180, ANCOUNT=1 and a 16-byte answer whose RDATA is [192,168,1,100]
(falling back to 127.0.0.1 on a bad ip string).  The code does nothing
of the sort: `unpack` keeps the raw label bytes `\x07example\x03com`,
which never `EqualFold`-matches `"example.com"`, so no datagram is sent
at all — and `pack` emits ANCOUNT=0 with no answer bytes even on a
match. -/
theorem handleRequest_drops_wire_A_query :
    unpack queryExampleA = .ok {
      ID := 0x1234, Flags := 0x0100,
      Question := { Name := [7, 101, 120, 97, 109, 112, 108, 101, 3, 99, 111, 109],
                    Qtype := 1, Class := 1 },
      Answers := [] }
    ∧ stringsEqualFold [7, 101, 120, 97, 109, 112, 108, 101, 3, 99, 111, 109]
        exampleComBytes = false
    ∧ handleRequest exampleServer queryExampleA = [] := by decide

/-- C2 counterexample: decoding the well-formed query for the one-label
name "ab" yields the raw bytes `\x02ab`, not the dot-joined name "ab". -/
theorem decodedName_not_dot_joined :
    decodedName (mkWireQuery 1 0 [[97, 98]] 1 1) = some [2, 97, 98]
    ∧ joinDots [[97, 98]] = [97, 98]
    ∧ ([2, 97, 98] : List Nat) ≠ [97, 98] := by decide

/-- C2 amended: for every well-formed single-question query built from
labels of length 1–63 (nonzero text bytes, total encoded length ≤ 255),
decode reproduces the raw encoded name — length prefixes included,
terminator excluded — as the question name, not the dot-joined labels. -/
theorem decodedName_raw_roundtrip (id flags qt qc : Nat) (labels : List (List Nat))
    (h1 : ∀ l ∈ labels, 1 ≤ l.length ∧ l.length ≤ 63)
    (h2 : (encodeLabels labels).length + 1 ≤ 255)
    (h3 : ∀ l ∈ labels, ∀ b ∈ l, b ≠ 0) :
    decodedName (mkWireQuery id flags labels qt qc) = some (encodeLabels labels) := by
  have hE : ∀ b ∈ encodeLabels labels, b ≠ 0 :=
    encodeLabels_ne_zero labels (fun l hl => (h1 l hl).1) h3
  have hdrop : (mkWireQuery id flags labels qt qc).drop 12
      = encodeLabels labels
        ++ 0 :: [qt / 256 % 256, qt % 256, qc / 256 % 256, qc % 256] := by rfl
  have hlen : (mkWireQuery id flags labels qt qc).length
      = (encodeLabels labels).length + 17 := by
    simp [mkWireQuery]
  have htake : ((mkWireQuery id flags labels qt qc).drop 12).takeWhile (fun b => b != 0)
      = encodeLabels labels := by
    rw [hdrop]
    exact takeWhile_append_zero _ _ hE
  simp only [decodedName, unpack, htake, hlen]
  rw [if_neg (by omega), if_neg (by omega), if_neg (by omega)]

/-- C2 amended, witness: the `example.com` wire query round-trips to its
raw encoded name. -/
theorem decodedName_raw_roundtrip_witness :
    decodedName (mkWireQuery 0x1234 0x0100
        [[101, 120, 97, 109, 112, 108, 101], [99, 111, 109]] 1 1)
      = some (encodeLabels [[101, 120, 97, 109, 112, 108, 101], [99, 111, 109]]) :=
  decodedName_raw_roundtrip 0x1234 0x0100 1 1
    [[101, 120, 97, 109, 112, 108, 101], [99, 111, 109]]
    (by decide) (by decide) (by decide)

/-- C3 counterexample: a query whose decoded name matches and whose type
is AAAA does get a response with echoed ID, flags 0x8180 and ANCOUNT=0,
but its total length is 29, not the 28 bytes of the request's
header-plus-question: the question name is re-encoded with label-length
prefixes, one byte longer than the raw bytes it was decoded from, so the
response is not the echoed header+question. -/
theorem aaaa_response_length_mismatch :
    (handleRequest exampleServer queryCraftedAAAA).map List.length = [29]
    ∧ queryCraftedAAAA.length = 28
    ∧ (29 : Nat) ≠ 28 := by decide

/-- C3 amended: for every query whose decoded name matches the
configured domain and whose type is AAAA (28), the server sends exactly
one response, consisting of the 12-byte header (echoed ID, flags 0x8180,
all four counts 0 — so ANCOUNT=0) followed by the re-encoded question
only, with no answer bytes appended; the question is re-encoded from the
decoded name rather than echoed byte-for-byte. -/
theorem aaaa_matched_response_shape (s : dnsServer) (req : List Nat) (msg : dnsMsg)
    (h1 : unpack req = .ok msg)
    (h2 : stringsEqualFold msg.Question.Name s.domain = true)
    (h3 : msg.Question.Qtype = 28) :
    handleRequest s req
      = [[msg.ID / 256 % 256, msg.ID % 256, 0x81, 0x80, 0, 0, 0, 0, 0, 0, 0, 0]
         ++ lengthPrefixedLabels (splitOnDot msg.Question.Name) ++ [0]
         ++ [0, 28, msg.Question.Class / 256 % 256, msg.Question.Class % 256]] := by
  simp only [handleRequest, h1, h2, if_true, pack_eq]
  norm_num [dnsFlagsResponse, h3]

/-- C3 amended, witness: the crafted AAAA query gets the single
re-encoded response. -/
theorem aaaa_matched_response_shape_witness :
    handleRequest exampleServer queryCraftedAAAA
      = [[0x56, 0x78, 0x81, 0x80, 0, 0, 0, 0, 0, 0, 0, 0]
         ++ lengthPrefixedLabels (splitOnDot exampleComBytes) ++ [0]
         ++ [0, 28, 0, 1]] :=
  aaaa_matched_response_shape exampleServer queryCraftedAAAA
    { ID := 0x5678, Flags := 0x0100,
      Question := { Name := exampleComBytes, Qtype := 28, Class := 1 },
      Answers := [] } (by decide) (by decide) (by decide)

/-- C4 counterexample: no trailing-dot stripping happens anywhere: with
the domain configured as `"example.com."` a query decoding to
`"example.com"` is not matched and gets no response, while the undotted
configuration answers the very same datagram. -/
theorem trailing_dot_not_stripped :
    stringsEqualFold exampleComBytes dottedServer.domain = false
    ∧ handleRequest dottedServer queryCraftedLower = []
    ∧ handleRequest exampleServer queryCraftedLower ≠ [] := by decide

/-- C4 amended: the match is case-insensitive equality between the
decoded name and the configured domain used verbatim (no trailing-dot
normalization).  With domain `"example.com"`, a query decoding to
`"EXAMPLE.COM"` is matched and answered the same as one decoding to
`"example.com"` up to letter case: the two responses agree byte-for-byte
after ASCII lower-casing, but are not identical, because `pack`
re-encodes the question name with the query's case preserved. -/
theorem case_fold_match_behavior :
    stringsEqualFold exampleComUpperBytes exampleServer.domain = true
    ∧ (handleRequest exampleServer queryCraftedUpper).map (List.map asciiToLower)
        = (handleRequest exampleServer queryCraftedLower).map (List.map asciiToLower)
    ∧ (handleRequest exampleServer queryCraftedUpper).length = 1
    ∧ handleRequest exampleServer queryCraftedUpper
        ≠ handleRequest exampleServer queryCraftedLower := by decide

/-- C5: the claim says decode returns the truncation error exactly when
fewer than 4 bytes remain after the name terminator, without reading
past the buffer.  The code's check is `qStart+4 > len(data)` but the
class read needs `qStart+5` bytes: with exactly 3 bytes after the
terminator (16-byte buffer `truncatedTail3`) the check passes and the
read runs one byte past the end — a Go slice-bounds panic, not the
error; with 2 bytes (`truncatedTail2`) the error is returned as
claimed. -/
theorem unpack_truncation_check_off_by_one :
    unpack truncatedTail3 = .panicSliceOOB
    ∧ unpack truncatedTail2 = .errMalformedQuestion := by decide

/-- C6: every buffer shorter than 12 bytes is rejected up front with the
"message too short" error, and in particular no out-of-bounds access
(the modelled panic) occurs. -/
theorem unpack_short_buffer_errors (data : List Nat) (h : data.length < 12) :
    unpack data = .errTooShort ∧ unpack data ≠ .panicSliceOOB := by
  constructor <;> simp [unpack, h]

/-- C6 witness. -/
theorem unpack_short_buffer_errors_witness :
    unpack [0, 1, 2] = .errTooShort ∧ unpack [0, 1, 2] ≠ .panicSliceOOB :=
  unpack_short_buffer_errors [0, 1, 2] (by decide)

/-- C7: whenever the decoded question name does not `EqualFold`-match
the configured domain, the handler writes nothing to the socket. -/
theorem handleRequest_no_match_silent (s : dnsServer) (req : List Nat) (msg : dnsMsg)
    (h1 : unpack req = .ok msg)
    (h2 : stringsEqualFold msg.Question.Name s.domain = false) :
    handleRequest s req = [] := by
  simp [handleRequest, h1, h2]

/-- C7 witness: the wire query for `other.com` produces no outbound
datagram. -/
theorem handleRequest_no_match_silent_witness :
    handleRequest exampleServer queryOtherA = [] :=
  handleRequest_no_match_silent exampleServer queryOtherA
    { ID := 0x9999, Flags := 0x0100,
      Question := { Name := [5, 111, 116, 104, 101, 114, 3, 99, 111, 109],
                    Qtype := 1, Class := 1 },
      Answers := [] }
    (by decide) (by decide)

/-- C8: handling is deterministic and stateless: in a trace of inbound
datagrams, any two positions carrying the identical byte sequence
produce identical write-lists (byte-identical responses, or nothing both
times). -/
theorem processAll_pointwise_deterministic (s : dnsServer) (reqs : List (List Nat))
    (i j : Nat) (hi : i < reqs.length) (hj : j < reqs.length)
    (h : reqs.getD i [] = reqs.getD j []) :
    (processAll s reqs).getD i [] = (processAll s reqs).getD j [] := by
  rw [getD_map_handle s reqs i hi, getD_map_handle s reqs j hj, h]

/-- C8 witness: the same query sent twice gets byte-identical
treatment. -/
theorem processAll_pointwise_deterministic_witness :
    (processAll exampleServer [queryExampleA, queryExampleA]).getD 0 []
      = (processAll exampleServer [queryExampleA, queryExampleA]).getD 1 [] :=
  processAll_pointwise_deterministic exampleServer [queryExampleA, queryExampleA]
    0 1 (by decide) (by decide) (by decide)

/-- C9: `pack` never fails, and its output is exactly the big-endian ID
and Flags, eight zero bytes (QDCOUNT=ANCOUNT=NSCOUNT=ARCOUNT=0 in every
packed message), the question name re-encoded as length-prefixed labels
split on `'.'`, a zero terminator, and the big-endian type and class;
the `Answers` field has no effect whatsoever on the output. -/
theorem pack_output_characterization (msg : dnsMsg) (ans : List dnsResourceRecord) :
    pack msg = .ok (
      [msg.ID / 256 % 256, msg.ID % 256, msg.Flags / 256 % 256, msg.Flags % 256,
       0, 0, 0, 0, 0, 0, 0, 0]
      ++ lengthPrefixedLabels (splitOnDot msg.Question.Name) ++ [0]
      ++ [msg.Question.Qtype / 256 % 256, msg.Question.Qtype % 256,
          msg.Question.Class / 256 % 256, msg.Question.Class % 256])
    ∧ pack { msg with Answers := ans } = pack msg :=
  ⟨pack_eq msg, rfl⟩

/-- C10: per inbound datagram the handler performs at most one socket
write; any written datagram comes from a successful decode whose name
`EqualFold`-matched the configured domain, and is the successful `pack`
of the response message whose single constructed answer record is type A
(1) with TTL 3600, whatever the query's type or class were. -/
theorem handleRequest_at_most_one_write (s : dnsServer) (req : List Nat) :
    (handleRequest s req).length ≤ 1
    ∧ ∀ w ∈ handleRequest s req, ∃ msg,
        unpack req = .ok msg
        ∧ stringsEqualFold msg.Question.Name s.domain = true
        ∧ pack { ID := msg.ID, Flags := dnsFlagsResponse, Question := msg.Question,
                 Answers := [{ Name := s.domain, Rtype := dnsTypeA, Class := dnsClassIN,
                               TTL := 3600, Data := netParseIP s.ip }] } = .ok w := by
  cases hu : unpack req with
  | ok msg =>
      by_cases hf : stringsEqualFold msg.Question.Name s.domain = true
      · have hh : handleRequest s req
            = [[msg.ID / 256 % 256, msg.ID % 256,
                dnsFlagsResponse / 256 % 256, dnsFlagsResponse % 256,
                0, 0, 0, 0, 0, 0, 0, 0]
               ++ lengthPrefixedLabels (splitOnDot msg.Question.Name) ++ [0]
               ++ [msg.Question.Qtype / 256 % 256, msg.Question.Qtype % 256,
                   msg.Question.Class / 256 % 256, msg.Question.Class % 256]] := by
          simp only [handleRequest, hu, hf, if_true, pack_eq]
        rw [hh]
        refine ⟨by simp, ?_⟩
        intro w hw
        rw [List.mem_singleton] at hw
        exact ⟨msg, rfl, hf, by rw [pack_eq, hw]⟩
      · rw [Bool.not_eq_true] at hf
        simp [handleRequest, hu, hf]
  | errTooShort => simp [handleRequest, hu]
  | errMalformedQuestion => simp [handleRequest, hu]
  | panicSliceOOB => simp [handleRequest, hu]

/-- C10 witness: instantiated at the crafted matching query. -/
theorem handleRequest_at_most_one_write_witness :
    (handleRequest exampleServer queryCraftedLower).length ≤ 1
    ∧ ∀ w ∈ handleRequest exampleServer queryCraftedLower, ∃ msg,
        unpack queryCraftedLower = .ok msg
        ∧ stringsEqualFold msg.Question.Name exampleServer.domain = true
        ∧ pack { ID := msg.ID, Flags := dnsFlagsResponse, Question := msg.Question,
                 Answers := [{ Name := exampleServer.domain, Rtype := dnsTypeA,
                               Class := dnsClassIN, TTL := 3600,
                               Data := netParseIP exampleServer.ip }] } = .ok w :=
  handleRequest_at_most_one_write exampleServer queryCraftedLower
